import Mathlib

/-!
# Shallow embedding of `src/worker.js` (zotero-worker)

A Cloudflare-Worker WebDAV gateway over an R2 bucket. Pure request/response
logic is embedded as executable Lean functions; the R2 bucket (`env.BUCKET`)
is modelled as an association list of key/object pairs threaded explicitly
through the handlers. Platform primitives are modelled as follows:

* `decodeURIComponent` — `percentDecode`, decoding `%hh` escapes at the
  code-unit level (single-byte sequences; multi-byte UTF-8 reassembly is
  not needed by any claim). A malformed escape throws a `URIError` in JS;
  here the decoder returns `none` and the dispatcher propagates it as
  `Except.error`, matching the unhandled-exception behaviour.
* `atob` — `atob`, the WHATWG forgiving-base64 decoder (strip ASCII
  whitespace, allow `=` padding, reject length ≡ 1 (mod 4) and characters
  outside the alphabet), yielding a binary string.
* `new URL(dest)` — `parseUrlPathname`, extracting the `pathname` of an
  absolute hierarchical URL (scheme `://` host, path up to `?`/`#`; an
  empty path normalises to `/`). Invalid URLs throw in JS, modelled as
  `Except.error`.
* R2 object metadata (`httpMetadata`, `uploaded` timestamps) and the XML
  serialisation of PROPFIND entries are abstracted: an entry is kept as a
  structured `PropEntry` (href, collection flag, object) exactly as the
  `responses` array holds them before `join`; timestamps do not appear in
  any claim. The store assigns a fresh etag to every write, modelled by a
  counter `nextEtag`.
-/

set_option linter.unusedVariables false

namespace ZoteroWorker

/-- Character-list prefix test (`String.prototype.startsWith`). -/
def startsWithL (pre s : List Char) : Bool :=
  pre.isPrefixOf s

/-- `s.startsWith(pre)` on strings, via the character lists. -/
def strStartsWith (s pre : String) : Bool :=
  startsWithL pre.data s.data

/-- `s.endsWith(suf)` on strings, via the character lists. -/
def strEndsWith (s suf : String) : Bool :=
  suf.data.isSuffixOf s.data

/-- Drop the first `n` characters of a string (`String.prototype.slice(n)`). -/
def strDrop (s : String) (n : Nat) : String :=
  ⟨s.data.drop n⟩

/-- Value of a hexadecimal digit, as used by `decodeURIComponent`
(code points 48–57 are `0`–`9`, 65–70 are `A`–`F`, 97–102 are `a`–`f`). -/
def hexVal (c : Char) : Option Nat :=
  let n := c.toNat
  if 48 ≤ n ∧ n ≤ 57 then some (n - 48)
  else if 65 ≤ n ∧ n ≤ 70 then some (n - 55)
  else if 97 ≤ n ∧ n ≤ 102 then some (n - 87)
  else none

/-- `decodeURIComponent` on a character list: decode each `%hh` escape to the
character with code `hh`; a `%` not followed by two hex digits is a
`URIError`, modelled as `none`. -/
def percentDecode : List Char → Option (List Char)
  | [] => some []
  | '%' :: h1 :: h2 :: rest =>
    match hexVal h1, hexVal h2 with
    | some a, some b => (percentDecode rest).map (fun cs => Char.ofNat (16 * a + b) :: cs)
    | _, _ => none
  | '%' :: [_] => none
  | ['%'] => none
  | c :: rest => (percentDecode rest).map (fun cs => c :: cs)

/-- Key resolution of `fetch` (worker.js lines 20–22), applied to a pathname
that is already known to start with `/zotero/`:
`decodeURIComponent(pathname.replace(/^\/zotero\//, "").replace(/^\/+/, ""))`.
The namespace prefix is removed, any leading slashes of the still-encoded
remainder are stripped, and the result is percent-decoded. -/
def resolveKey (pathname : String) : Option String :=
  let stripped :=
    if strStartsWith pathname "/zotero/" then pathname.data.drop 8 else pathname.data
  (percentDecode (stripped.dropWhile (fun c => c = '/'))).map (fun cs => (⟨cs⟩ : String))

/-- Characters of an absolute URL after its `://` scheme separator, or
`none` when the separator is absent (an invalid URL for `new URL`). -/
def afterScheme : List Char → Option (List Char)
  | [] => Option.none
  | ':' :: '/' :: '/' :: rest => some rest
  | _ :: rest => afterScheme rest

/-- `new URL(dest).pathname` for an absolute hierarchical URL: skip the
scheme and authority, keep the path up to a `?` or `#`; an empty path
normalises to `/`. (WHATWG URL parsing restricted to what the worker's
`Destination` handling needs.) -/
def parseUrlPathname (s : String) : Option String :=
  match afterScheme s.data with
  | Option.none => Option.none
  | some rest =>
    let afterHost := rest.dropWhile (fun c => ¬ (c = '/' ∨ c = '?' ∨ c = '#'))
    let path := afterHost.takeWhile (fun c => ¬ (c = '?' ∨ c = '#'))
    some (if path = [] then "/" else (⟨path⟩ : String))

/-- Base64 alphabet value of a character (`A–Z` ↦ 0–25, `a–z` ↦ 26–51,
`0–9` ↦ 52–61, `+` ↦ 62, `/` ↦ 63), by code point. -/
def b64Val (c : Char) : Option Nat :=
  let n := c.toNat
  if 65 ≤ n ∧ n ≤ 90 then some (n - 65)
  else if 97 ≤ n ∧ n ≤ 122 then some (n - 71)
  else if 48 ≤ n ∧ n ≤ 57 then some (n + 4)
  else if n = 43 then some 62
  else if n = 47 then some 63
  else none

/-- Bit-accumulating base64 decode of a padding-free character list:
each character contributes 6 bits, every full 8 bits emits a byte. -/
def b64Bits : List Char → Nat → Nat → Option (List Nat)
  | [], acc, bits => some []
  | c :: rest, acc, bits =>
    match b64Val c with
    | none => none
    | some v =>
      let acc' := acc * 64 + v
      let bits' := bits + 6
      if 8 ≤ bits' then
        (b64Bits rest (acc' % 2 ^ (bits' - 8)) (bits' - 8)).map
          (fun bs => acc' / 2 ^ (bits' - 8) :: bs)
      else
        b64Bits rest acc' bits'

/-- `atob`: WHATWG forgiving-base64 decode to a binary string. ASCII
whitespace is stripped; if the length is a multiple of 4, up to two
trailing `=` are removed; a length ≡ 1 (mod 4) or a character outside the
alphabet is an `InvalidCharacterError`, modelled as `none`. -/
def atob (s : String) : Option String :=
  let cs := s.data.filter (fun c => ¬ (c = ' ' ∨ c = '\t' ∨ c = '\n' ∨ c = '\r' ∨ c = '\x0c'))
  let cs :=
    if cs.length % 4 = 0 then
      if (cs.reverse.takeWhile (fun c => c = '=')).length ≤ 2 then
        (cs.reverse.dropWhile (fun c => c = '=')).reverse
      else cs
    else cs
  if cs.length % 4 = 1 then none
  else (b64Bits cs 0 0).map (fun bs => (⟨bs.map Char.ofNat⟩ : String))

/-- The worker's configuration bindings (`env.WEBDAV_USER`, `env.WEBDAV_PASS`). -/
structure Env where
  WEBDAV_USER : String
  WEBDAV_PASS : String
deriving Repr, DecidableEq

/-- `checkAuth` (worker.js lines 61–79): require the `Basic ` scheme, base64-
decode the remainder, split at the first `:`, and compare user and password
against the configured secrets by exact string equality. -/
def checkAuth (authHeader : String) (env : Env) : Bool :=
  if ¬ strStartsWith authHeader "Basic " then false
  else
    match atob (strDrop authHeader 6) with
    | none => false
    | some decoded =>
      let d := decoded.data
      let sep := d.indexOf ':'
      if sep = d.length then false
      else
        decide ((⟨d.take sep⟩ : String) = env.WEBDAV_USER ∧
                (⟨d.drop (sep + 1)⟩ : String) = env.WEBDAV_PASS)

/-- A stored R2 object: its body (a byte sequence) and the etag the store
assigned when it was written. `obj.size` is the body's byte count. -/
structure R2Object where
  body : List Nat
  etag : Nat
deriving Repr, DecidableEq

/-- `obj.size`, as read by the handlers (`Content-Length`, `getcontentlength`). -/
def R2Object.size (o : R2Object) : Nat :=
  o.body.length

/-- The R2 bucket (`env.BUCKET`): a flat key→object map kept as an
association list, plus the counter from which the store mints fresh etags. -/
structure Store where
  objs : List (String × R2Object)
  nextEtag : Nat
deriving Repr, DecidableEq

/-- `BUCKET.get(key)`: the object at `key`, if any. -/
def Store.get (s : Store) (key : String) : Option R2Object :=
  (s.objs.find? (fun kv => kv.1 = key)).map (fun kv => kv.2)

/-- `BUCKET.put(key, body)`: overwrite the object at `key` with `body`,
assigning it a fresh etag; returns the new store and the assigned etag. -/
def Store.put (s : Store) (key : String) (body : List Nat) : Store × Nat :=
  (⟨(key, ⟨body, s.nextEtag⟩) :: s.objs.filter (fun kv => ¬ kv.1 = key),
    s.nextEtag + 1⟩, s.nextEtag)

/-- `BUCKET.delete(key)`: remove the object at `key` (no-op when absent). -/
def Store.delete (s : Store) (key : String) : Store :=
  ⟨s.objs.filter (fun kv => ¬ kv.1 = key), s.nextEtag⟩

/-- `BUCKET.list({ prefix })`: every stored entry whose key starts with
`prefix`, in the store's own enumeration order. -/
def Store.list (s : Store) (prefix_ : String) : List (String × R2Object) :=
  s.objs.filter (fun kv => strStartsWith kv.1 prefix_)

/-- An inbound request, with the fields the worker reads: the method, the
URL's pathname, the three consumed headers, and the body bytes. A header
is `none` when absent (`headers.get` returns `null`). -/
structure Request where
  method : String
  pathname : String
  authorization : Option String
  destination : Option String
  depth : Option String
  body : List Nat
deriving Repr, DecidableEq

/-- One `<d:response>` entry of a PROPFIND multi-status document, as built
by `buildPropResponse` (worker.js lines 231–251): its href, whether the
`resourcetype` carries the `<d:collection/>` marker, and the object whose
size/etag it reports (absent for synthesized collections). -/
structure PropEntry where
  href : String
  isCollection : Bool
  obj : Option R2Object
deriving Repr, DecidableEq

/-- A response body: none, text (error pages), raw object bytes (GET), or
a multi-status document (PROPFIND) kept as its structured entry list. -/
inductive RespBody where
  | none
  | text (s : String)
  | bytes (b : List Nat)
  | multistatus (entries : List PropEntry)
deriving Repr, DecidableEq

/-- An HTTP response: status, the headers the worker sets, and the body. -/
structure Resp where
  status : Nat
  headers : List (String × String)
  body : RespBody
deriving Repr, DecidableEq

/-- The 401 response of `fetch` (worker.js lines 6–11). -/
def unauthorizedResp : Resp :=
  ⟨401, [("WWW-Authenticate", "Basic realm=\"Zotero WebDAV\"")], .text "Unauthorized"⟩

/-- `handleGetHead` (worker.js lines 83–96): 404 when no object is stored at
`key`; otherwise 200 with `Content-Length`/`ETag` headers, and the body
unless the method is HEAD. (`new Response(body, {headers})` defaults to
status 200.) -/
def handleGetHead (store : Store) (key : String) (method : String) : Resp :=
  match store.get key with
  | Option.none => ⟨404, [], .text "Not Found"⟩
  | some obj =>
    let headers := [("Content-Length", toString obj.size), ("ETag", toString obj.etag)]
    if method = "HEAD" then ⟨200, headers, .none⟩
    else ⟨200, headers, .bytes obj.body⟩

/-- `handlePut` (worker.js lines 98–101): write the request body at `key`,
respond 201. -/
def handlePut (store : Store) (key : String) (req : Request) : Store × Resp :=
  ((store.put key req.body).1, ⟨201, [], .none⟩)

/-- Destination-key resolution shared by `handleMove`/`handleCopy`
(worker.js lines 104–116 and 133–145): missing (or empty, JS falsiness)
`Destination` → 400; a destination URL whose pathname is outside
`/zotero/` → 403; otherwise the resolved destination key. URL-parse and
percent-decode failures throw, modelled as `Except.error`. -/
def resolveDest (store : Store) (req : Request) :
    Except String (Resp ⊕ String) :=
  match req.destination with
  | Option.none => .ok (.inl ⟨400, [], .text "Bad Request"⟩)
  | some dest =>
    if dest = "" then .ok (.inl ⟨400, [], .text "Bad Request"⟩)
    else
      match parseUrlPathname dest with
      | Option.none => .error "TypeError: Invalid URL"
      | some destPath =>
        if ¬ strStartsWith destPath "/zotero/" then
          .ok (.inl ⟨403, [], .text "Forbidden"⟩)
        else
          match resolveKey destPath with
          | Option.none => .error "URIError"
          | some destKey => .ok (.inr destKey)

/-- `handleMove` (worker.js lines 103–130): resolve the destination; 404 when
the source is absent; otherwise write the source object's body at the
destination key (fresh etag) and delete the source, responding 201. -/
def handleMove (store : Store) (srcKey : String) (req : Request) :
    Except String (Store × Resp) :=
  match resolveDest store req with
  | .error e => .error e
  | .ok (.inl resp) => .ok (store, resp)
  | .ok (.inr destKey) =>
    match store.get srcKey with
    | Option.none => .ok (store, ⟨404, [], .text "Not Found"⟩)
    | some obj =>
      let s1 := (store.put destKey obj.body).1
      .ok (s1.delete srcKey, ⟨201, [], .none⟩)

/-- `handleCopy` (worker.js lines 132–157): as `handleMove` but the source
is retained (no delete step). -/
def handleCopy (store : Store) (srcKey : String) (req : Request) :
    Except String (Store × Resp) :=
  match resolveDest store req with
  | .error e => .error e
  | .ok (.inl resp) => .ok (store, resp)
  | .ok (.inr destKey) =>
    match store.get srcKey with
    | Option.none => .ok (store, ⟨404, [], .text "Not Found"⟩)
    | some obj =>
      let s1 := (store.put destKey obj.body).1
      .ok (s1, ⟨201, [], .none⟩)

/-- `handleDelete` (worker.js lines 159–162): delete the key, respond 204
unconditionally. -/
def handleDelete (store : Store) (key : String) : Store × Resp :=
  (store.delete key, ⟨204, [], .none⟩)

/-- `handleMkcol` (worker.js lines 164–168): collections are virtual, so a
bare 201. -/
def handleMkcol (store : Store) (key : String) : Resp :=
  ⟨201, [], .none⟩

/-- `handlePropfind` (worker.js lines 172–229): a missing or empty `Depth`
header counts as `"0"` (JS `|| "0"`). Depth `"0"` emits one entry for the
resolved key (collection iff no object is stored there; an empty key is
never looked up, JS falsiness of `path`). Any other depth lists the store
by `path + "/"` and emits the parent collection entry followed by one
non-collection entry per listed object. -/
def handlePropfind (store : Store) (path : String) (req : Request) : Resp :=
  let depth := match req.depth with
    | Option.none => "0"
    | some d => if d = "" then "0" else d
  let prefix_ := if strEndsWith path "/" then path else path ++ "/"
  let responses :=
    if depth = "0" then
      let obj := if path = "" then Option.none else store.get path
      [(⟨req.pathname, obj.isNone, obj⟩ : PropEntry)]
    else
      let list := store.list prefix_
      (⟨if strEndsWith req.pathname "/" then req.pathname else req.pathname ++ "/",
        true, Option.none⟩ : PropEntry) ::
      list.map (fun o => (⟨"/zotero/" ++ o.1, false, some o.2⟩ : PropEntry))
  ⟨207, [("Content-Type", "application/xml; charset=utf-8")], .multistatus responses⟩

/-- `handleOptions` (worker.js lines 255–264). -/
def handleOptions : Resp :=
  ⟨204, [("Allow", "OPTIONS, GET, HEAD, PUT, DELETE, MKCOL, PROPFIND, MOVE, COPY"),
         ("DAV", "1,2"), ("MS-Author-Via", "DAV")], .none⟩

/-- The credential gate of `fetch` (worker.js line 5):
`!auth || !checkAuth(auth, env)` — absent or empty header (JS falsiness),
or failed validation. -/
def authPasses (req : Request) (env : Env) : Bool :=
  match req.authorization with
  | Option.none => false
  | some a => if a = "" then false else checkAuth a env

/-- `fetch` (worker.js lines 2–56): credential gate, namespace check, key
resolution, then dispatch by method. `Except.error` models an uncaught
exception (surfacing as a generic server error at the platform). -/
def fetch (store : Store) (env : Env) (req : Request) :
    Except String (Store × Resp) :=
  if ¬ authPasses req env then .ok (store, unauthorizedResp)
  else if ¬ strStartsWith req.pathname "/zotero/" then
    .ok (store, ⟨404, [], .text "Not Found"⟩)
  else
    match resolveKey req.pathname with
    | Option.none => .error "URIError"
    | some path =>
      match req.method with
      | "GET" => .ok (store, handleGetHead store path req.method)
      | "HEAD" => .ok (store, handleGetHead store path req.method)
      | "PUT" => .ok (handlePut store path req)
      | "MOVE" => handleMove store path req
      | "COPY" => handleCopy store path req
      | "DELETE" => .ok (handleDelete store path)
      | "MKCOL" => .ok (store, handleMkcol store path)
      | "PROPFIND" => .ok (store, handlePropfind store path req)
      | "OPTIONS" => .ok (store, handleOptions)
      | _ => .ok (store, ⟨405, [], .text "Method Not Allowed"⟩)

/-- The property-response entries of a PROPFIND response (empty for any
other body kind). -/
def Resp.entries (r : Resp) : List PropEntry :=
  match r.body with
  | .multistatus es => es
  | _ => []

/-- A refinement rendering of the spec's words for key resolution
(spec §4.2): “Percent-decode the remainder, then strip any number of
leading slashes, producing the store key” — decode first, strip after.
Compared against `resolveKey`, which embeds the code. -/
def specResolveKey (pathname : String) : Option String :=
  let stripped :=
    if strStartsWith pathname "/zotero/" then pathname.data.drop 8 else pathname.data
  (percentDecode stripped).map (fun cs => (⟨cs.dropWhile (fun c => c = '/')⟩ : String))

/-- Concrete configuration used by witnesses. -/
def env0 : Env := ⟨"user", "pass"⟩

/-- `Basic` credential for `user:pass` (base64 `dXNlcjpwYXNz`). -/
def authHdr : Option String := some "Basic dXNlcjpwYXNz"

/-- Concrete store used by witnesses: two children and one grandchild
under `a/`. -/
def store0 : Store :=
  ⟨[("a/x", ⟨[1, 2], 0⟩), ("a/y", ⟨[3], 1⟩), ("a/c/d", ⟨[9], 2⟩)], 3⟩

/-- Concrete one-object store used by the MOVE-to-self counterexample. -/
def storeC : Store := ⟨[("a", ⟨[5], 0⟩)], 1⟩

/-- PROPFIND request on `/zotero/a` with `Depth: infinity`. -/
def reqInf : Request := ⟨"PROPFIND", "/zotero/a", authHdr, Option.none, some "infinity", []⟩

/-- PROPFIND request on `/zotero/a` with `Depth: 0`. -/
def reqD0 : Request := ⟨"PROPFIND", "/zotero/a", authHdr, Option.none, some "0", []⟩

/-- PROPFIND request on `/zotero/a` with `Depth: 1`. -/
def reqD1 : Request := ⟨"PROPFIND", "/zotero/a", authHdr, Option.none, some "1", []⟩

/-- MOVE request whose destination resolves to the source key itself. -/
def reqMoveSelf : Request :=
  ⟨"MOVE", "/zotero/a", authHdr, some "https://host/zotero/a", Option.none, []⟩

/-- MOVE request from `/zotero/a/x` to destination key `b`. -/
def reqMoveB : Request :=
  ⟨"MOVE", "/zotero/a/x", authHdr, some "https://host/zotero/b", Option.none, []⟩

/-- COPY request from `/zotero/a/x` to destination key `b`. -/
def reqCopyB : Request :=
  ⟨"COPY", "/zotero/a/x", authHdr, some "https://host/zotero/b", Option.none, []⟩

instance : DecidableEq (Except String (Store × Resp)) := fun a b =>
  match a, b with
  | .ok x, .ok y => decidable_of_iff (x = y) (by constructor <;> (intro h; cases h; rfl))
  | .error x, .error y => decidable_of_iff (x = y) (by constructor <;> (intro h; cases h; rfl))
  | .ok _, .error _ => isFalse (by intro h; cases h)
  | .error _, .ok _ => isFalse (by intro h; cases h)

/-- MOVE request with no `Destination` header. -/
def reqNoDest : Request := ⟨"MOVE", "/zotero/a", authHdr, Option.none, Option.none, []⟩

/-- COPY request whose destination pathname lies outside `/zotero/`. -/
def reqOutside : Request :=
  ⟨"COPY", "/zotero/a/x", authHdr, some "https://host/other/b", Option.none, []⟩

/-- Request with no `Authorization` header at all. -/
def reqNoAuth : Request := ⟨"PUT", "/zotero/a", Option.none, Option.none, Option.none, [1]⟩

/-- Unauthenticated request with an unsupported method and an out-of-namespace
path. -/
def reqBrew : Request := ⟨"BREW", "/coffee", Option.none, Option.none, Option.none, []⟩

/-- Concrete store whose objects under `a/` are exactly `a/x` and `a/y`. -/
def store8 : Store := ⟨[("a/x", ⟨[1, 2], 0⟩), ("a/y", ⟨[3], 1⟩)], 2⟩

/-! ## Store lemmas -/

theorem find?_filter_ne (l : List (String × R2Object)) (k k' : String) (h : ¬ k' = k) :
    (l.filter (fun kv => ¬ kv.1 = k)).find? (fun kv => kv.1 = k') =
      l.find? (fun kv => kv.1 = k') := by
  induction l with
  | nil => rfl
  | cons a l ih =>
    by_cases hak : a.1 = k
    · have hak' : ¬ a.1 = k' := fun he => h (he.symm.trans hak)
      rw [List.filter_cons, if_neg (by simp [hak]),
        List.find?_cons_of_neg _ (by simp [hak']), ih]
    · rw [List.filter_cons, if_pos (by simp [hak])]
      by_cases hak' : a.1 = k'
      · rw [List.find?_cons_of_pos _ (by simp [hak']),
          List.find?_cons_of_pos _ (by simp [hak'])]
      · rw [List.find?_cons_of_neg _ (by simp [hak']),
          List.find?_cons_of_neg _ (by simp [hak']), ih]

theorem Store.get_put_self (s : Store) (k : String) (b : List Nat) :
    ((s.put k b).1).get k = some ⟨b, s.nextEtag⟩ := by
  simp [Store.get, Store.put, List.find?_cons]

theorem Store.get_put_ne (s : Store) (k k' : String) (b : List Nat) (h : ¬ k' = k) :
    ((s.put k b).1).get k' = s.get k' := by
  simp only [Store.get, Store.put]
  rw [List.find?_cons_of_neg _ (by simpa using fun he : k = k' => h he.symm),
    find?_filter_ne s.objs k k' h]

theorem Store.get_delete_self (s : Store) (k : String) :
    (s.delete k).get k = Option.none := by
  have hf : (s.objs.filter (fun kv => ¬ kv.1 = k)).find? (fun kv => kv.1 = k) =
      Option.none := by
    rw [List.find?_eq_none]
    intro a ha
    have := (List.mem_filter.mp ha).2
    simpa using this
  simp only [Store.get, Store.delete, hf, Option.map_none']

theorem Store.get_delete_ne (s : Store) (k k' : String) (h : ¬ k' = k) :
    (s.delete k).get k' = s.get k' := by
  simp only [Store.get, Store.delete]
  rw [find?_filter_ne s.objs k k' h]

theorem Store.delete_delete (s : Store) (k : String) :
    (s.delete k).delete k = s.delete k := by
  simp [Store.delete, List.filter_filter]

/-! ## Claim theorems -/

/-- C5: for every store, key `k` and request body `b`, PUT(k, b) responds 201
and a subsequent GET(k) returns status 200 with exactly the bytes `b`, the
`Content-Length` of `b`, and an `ETag` equal to the etag the store assigned
when the PUT wrote the object. -/
theorem C5_put_then_get (store : Store) (k : String) (req : Request) :
    (handlePut store k req).2 = ⟨201, [], .none⟩ ∧
    handleGetHead (handlePut store k req).1 k "GET" =
      ⟨200,
       [("Content-Length", toString req.body.length),
        ("ETag", toString (store.put k req.body).2)],
       .bytes req.body⟩ := by
  refine ⟨rfl, ?_⟩
  have hg : (handlePut store k req).1.get k = some ⟨req.body, store.nextEtag⟩ :=
    Store.get_put_self store k req.body
  simp [handleGetHead, hg, R2Object.size, Store.put]

/-- C7: DELETE(k) always responds 204, and a second DELETE(k) responds 204
again and leaves the store exactly as a single DELETE(k) did (idempotence). -/
theorem C7_delete_idempotent (store : Store) (k : String) :
    (handleDelete store k).2 = ⟨204, [], .none⟩ ∧
    handleDelete (handleDelete store k).1 k = handleDelete store k := by
  refine ⟨rfl, ?_⟩
  simp [handleDelete, Store.delete_delete]

/-- C1 counterexample: on a store with objects under `a/`, a PROPFIND on
`/zotero/a` with `Depth: infinity` emits four entries (the parent plus the
prefix listing), not the single entry that `Depth: 0` emits — so a Depth
value that is neither `0` nor `1` is not treated as Depth 0. -/
theorem C1_counterexample :
    (handlePropfind store0 "a" reqInf).entries.length = 4 ∧
    (handlePropfind store0 "a" reqD0).entries.length = 1 ∧
    handlePropfind store0 "a" reqInf ≠ handlePropfind store0 "a" reqD0 := by
  decide

/-- C1 amended: every present, non-empty `Depth` value other than `"0"`
(e.g. `"infinity"`) makes the enumerator behave exactly as for `Depth: 1`
(parent entry plus prefix listing); only a missing or empty `Depth` header
is treated as `0`. -/
theorem C1_amended_depth_other_is_depth1 (store : Store) (path : String)
    (req : Request) (d : String) (hd : req.depth = some d) (h0 : d ≠ "0")
    (he : d ≠ "") :
    handlePropfind store path req =
      handlePropfind store path { req with depth := some "1" } := by
  simp [handlePropfind, hd, h0, he]

theorem C1_amended_witness :
    reqInf.depth = some "infinity" ∧ "infinity" ≠ "0" ∧ "infinity" ≠ "" ∧
    handlePropfind store0 "a" reqInf =
      handlePropfind store0 "a" { reqInf with depth := some "1" } :=
  ⟨rfl, by decide, by decide,
   C1_amended_depth_other_is_depth1 store0 "a" reqInf "infinity" rfl (by decide) (by decide)⟩

/-- C2 counterexample: the path `/zotero/%2Ffoo` resolves to the key `/foo`
(the percent-encoded slash survives, the key keeps a leading slash), not to
`foo` as decode-first-then-strip would give (`specResolveKey`). -/
theorem C2_counterexample :
    resolveKey "/zotero/%2Ffoo" = some "/foo" ∧
    resolveKey "/zotero/%2Ffoo" ≠ some "foo" ∧
    specResolveKey "/zotero/%2Ffoo" = some "foo" := by
  decide

/-- C2 amended: the resolver strips leading slashes from the still-encoded
remainder first and percent-decodes afterwards, so only literal leading
slashes are stripped; a percent-encoded slash survives into the key
(`%2Ffoo` resolves to `/foo`). -/
theorem C2_amended_strip_then_decode :
    resolveKey "/zotero/%2Ffoo" = some "/foo" ∧
    resolveKey "/zotero//foo" = some "foo" ∧
    ∀ p : String, strStartsWith p "/zotero/" = true →
      resolveKey p =
        (percentDecode ((p.data.drop 8).dropWhile (fun c => c = '/'))).map
          (fun cs => (⟨cs⟩ : String)) := by
  refine ⟨by decide, by decide, ?_⟩
  intro p hp
  simp [resolveKey, hp]

theorem C2_amended_witness :
    strStartsWith "/zotero/%2Ffoo" "/zotero/" = true ∧
    resolveKey "/zotero/%2Ffoo" =
      (percentDecode (("/zotero/%2Ffoo".data.drop 8).dropWhile (fun c => c = '/'))).map
        (fun cs => (⟨cs⟩ : String)) :=
  ⟨by decide, C2_amended_strip_then_decode.2.2 "/zotero/%2Ffoo" (by decide)⟩

/-- C4: MOVE and COPY with a missing `Destination` header respond 400, and
with a destination pathname outside `/zotero/` respond 403; in both cases
the store is returned completely unchanged. -/
theorem C4_dest_missing_or_outside (store : Store) (k : String) (req : Request) :
    (req.destination = Option.none →
      handleMove store k req = .ok (store, ⟨400, [], .text "Bad Request"⟩) ∧
      handleCopy store k req = .ok (store, ⟨400, [], .text "Bad Request"⟩)) ∧
    (∀ dest dp, req.destination = some dest → parseUrlPathname dest = some dp →
      strStartsWith dp "/zotero/" = false →
      handleMove store k req = .ok (store, ⟨403, [], .text "Forbidden"⟩) ∧
      handleCopy store k req = .ok (store, ⟨403, [], .text "Forbidden"⟩)) := by
  constructor
  · intro h
    constructor <;> simp [handleMove, handleCopy, resolveDest, h]
  · intro dest dp hdest hp hout
    have hne : ¬ dest = "" := by
      intro h0
      rw [h0] at hp
      exact Option.noConfusion ((show parseUrlPathname "" = Option.none by decide) ▸ hp)
    constructor <;> simp [handleMove, handleCopy, resolveDest, hdest, hne, hp, hout]

theorem C4_witness :
    reqNoDest.destination = Option.none ∧
    handleMove store0 "a" reqNoDest = .ok (store0, ⟨400, [], .text "Bad Request"⟩) ∧
    reqOutside.destination = some "https://host/other/b" ∧
    parseUrlPathname "https://host/other/b" = some "/other/b" ∧
    strStartsWith "/other/b" "/zotero/" = false ∧
    handleCopy store0 "a/x" reqOutside = .ok (store0, ⟨403, [], .text "Forbidden"⟩) :=
  ⟨rfl, ((C4_dest_missing_or_outside store0 "a" reqNoDest).1 rfl).1,
   rfl, by decide, by decide,
   ((C4_dest_missing_or_outside store0 "a/x" reqOutside).2 "https://host/other/b"
     "/other/b" rfl (by decide) (by decide)).2⟩

/-- Helper: each of the claim's malformed-credential conditions makes
`checkAuth` return false. -/
theorem checkAuth_eq_false (a : String) (env : Env)
    (h : strStartsWith a "Basic " = false ∨
      atob (strDrop a 6) = Option.none ∨
      (∃ dcd, atob (strDrop a 6) = some dcd ∧
        dcd.data.indexOf ':' = dcd.data.length) ∨
      (∃ dcd, atob (strDrop a 6) = some dcd ∧
        ((⟨dcd.data.take (dcd.data.indexOf ':')⟩ : String) ≠ env.WEBDAV_USER ∨
         (⟨dcd.data.drop (dcd.data.indexOf ':' + 1)⟩ : String) ≠ env.WEBDAV_PASS))) :
    checkAuth a env = false := by
  by_cases hb : strStartsWith a "Basic " = false
  · simp [checkAuth, hb]
  · rcases h with h | h | ⟨dcd, hd, hsep⟩ | ⟨dcd, hd, hmm⟩
    · exact absurd h hb
    · simp [checkAuth, hb, h]
    · simp [checkAuth, hb, hd, hsep]
    · by_cases hsep : dcd.data.indexOf ':' = dcd.data.length
      · simp [checkAuth, hb, hd, hsep]
      · simp only [checkAuth, hb, hd, if_false, Bool.not_eq_true]
        simp only [Bool.not_eq_false] at hb
        rw [if_neg (by simp [hb])]
        rw [if_neg hsep]
        rw [decide_eq_false_iff_not]
        rintro ⟨h1, h2⟩
        rcases hmm with hu | hp
        · exact hu h1
        · exact hp h2

/-- C6: a request whose `Authorization` header is missing, not of the
`Basic` scheme, not valid base64, lacks a colon after decoding, or decodes
to a user/password pair different from the configured secrets, is answered
with the 401 response carrying the `WWW-Authenticate` challenge, for every
method and path, with the store untouched. -/
theorem C6_bad_credentials_401 (store : Store) (env : Env) (req : Request)
    (h : req.authorization = Option.none ∨
      ∃ a, req.authorization = some a ∧
        (strStartsWith a "Basic " = false ∨
         atob (strDrop a 6) = Option.none ∨
         (∃ dcd, atob (strDrop a 6) = some dcd ∧
           dcd.data.indexOf ':' = dcd.data.length) ∨
         (∃ dcd, atob (strDrop a 6) = some dcd ∧
           ((⟨dcd.data.take (dcd.data.indexOf ':')⟩ : String) ≠ env.WEBDAV_USER ∨
            (⟨dcd.data.drop (dcd.data.indexOf ':' + 1)⟩ : String) ≠ env.WEBDAV_PASS)))) :
    fetch store env req = .ok (store, unauthorizedResp) ∧
    unauthorizedResp.status = 401 ∧
    ("WWW-Authenticate", "Basic realm=\"Zotero WebDAV\"") ∈ unauthorizedResp.headers := by
  refine ⟨?_, rfl, by decide⟩
  have hap : authPasses req env = false := by
    rcases h with h | ⟨a, ha, hcase⟩
    · simp [authPasses, h]
    · by_cases hae : a = ""
      · simp [authPasses, ha, hae]
      · simp [authPasses, ha, hae, checkAuth_eq_false a env hcase]
  simp [fetch, hap]

theorem C6_witness :
    reqNoAuth.authorization = Option.none ∧
    fetch store0 env0 reqNoAuth = .ok (store0, unauthorizedResp) :=
  ⟨rfl, (C6_bad_credentials_401 store0 env0 reqNoAuth (Or.inl rfl)).1⟩

/-- C9: the credential gate runs before the namespace check and method
dispatch: every request that fails authentication gets the 401 response —
even with a path outside `/zotero/` or an unsupported method — and the
store is returned unchanged (no store operation happens). -/
theorem C9_auth_gate_first (store : Store) (env : Env) (req : Request)
    (h : authPasses req env = false) :
    fetch store env req = .ok (store, unauthorizedResp) := by
  simp [fetch, h]

theorem C9_witness :
    authPasses reqBrew env0 = false ∧
    fetch store0 env0 reqBrew = .ok (store0, unauthorizedResp) :=
  ⟨by decide, C9_auth_gate_first store0 env0 reqBrew (by decide)⟩

/-- C3 counterexample: MOVE of key `a` onto a destination resolving to `a`
itself responds 201 but leaves the store empty — the write is followed by
the delete of the same key — so a GET of the destination fails with 404,
contradicting the claim's `GET(d) == b` at `d = s`. -/
theorem C3_counterexample :
    handleMove storeC "a" reqMoveSelf = .ok (⟨[], 2⟩, ⟨201, [], .none⟩) ∧
    handleGetHead (⟨[], 2⟩ : Store) "a" "GET" = ⟨404, [], .text "Not Found"⟩ := by
  decide

/-- C3 amended: for a source `s` holding `obj` and a destination resolving
to key `d`: when `d ≠ s`, MOVE makes GET(d) succeed with `obj.body` and
GET(s) fail with 404; COPY makes GET(d) succeed with `obj.body` while
GET(s) still succeeds with `obj.body` — the latter for every `d`, the
same-key case included. (MOVE onto the same key instead deletes the
object, as the counterexample shows.) -/
theorem C3_amended_move_copy (store : Store) (s d : String) (obj : R2Object)
    (reqM reqC : Request)
    (hobj : store.get s = some obj)
    (hdM : resolveDest store reqM = .ok (.inr d))
    (hdC : resolveDest store reqC = .ok (.inr d)) :
    (d ≠ s →
      handleMove store s reqM =
        .ok (((store.put d obj.body).1).delete s, ⟨201, [], .none⟩) ∧
      (handleGetHead (((store.put d obj.body).1).delete s) d "GET").status = 200 ∧
      (handleGetHead (((store.put d obj.body).1).delete s) d "GET").body =
        .bytes obj.body ∧
      handleGetHead (((store.put d obj.body).1).delete s) s "GET" =
        ⟨404, [], .text "Not Found"⟩) ∧
    (handleCopy store s reqC = .ok ((store.put d obj.body).1, ⟨201, [], .none⟩) ∧
      (handleGetHead ((store.put d obj.body).1) d "GET").status = 200 ∧
      (handleGetHead ((store.put d obj.body).1) d "GET").body = .bytes obj.body ∧
      (handleGetHead ((store.put d obj.body).1) s "GET").status = 200 ∧
      (handleGetHead ((store.put d obj.body).1) s "GET").body = .bytes obj.body) := by
  constructor
  · intro hne
    have hgd : (((store.put d obj.body).1).delete s).get d =
        some ⟨obj.body, store.nextEtag⟩ := by
      rw [Store.get_delete_ne _ _ _ hne, Store.get_put_self]
    have hgs : (((store.put d obj.body).1).delete s).get s = Option.none :=
      Store.get_delete_self _ s
    refine ⟨by simp [handleMove, hdM, hobj], ?_, ?_, ?_⟩ <;>
      simp [handleGetHead, hgd, hgs]
  · have hgd : ((store.put d obj.body).1).get d = some ⟨obj.body, store.nextEtag⟩ :=
      Store.get_put_self store d obj.body
    have hgs : ∃ e, ((store.put d obj.body).1).get s = some ⟨obj.body, e⟩ := by
      by_cases hsd : s = d
      · subst hsd
        exact ⟨store.nextEtag, Store.get_put_self store s obj.body⟩
      · refine ⟨obj.etag, ?_⟩
        rw [Store.get_put_ne store d s obj.body hsd, hobj]
    rcases hgs with ⟨e, hgs⟩
    refine ⟨by simp [handleCopy, hdC, hobj], ?_, ?_, ?_, ?_⟩ <;>
      simp [handleGetHead, hgd, hgs]

theorem C3_witness :
    store0.get "a/x" = some ⟨[1, 2], 0⟩ ∧
    resolveDest store0 reqMoveB = .ok (.inr "b") ∧
    resolveDest store0 reqCopyB = .ok (.inr "b") ∧
    ("b" : String) ≠ "a/x" ∧
    handleMove store0 "a/x" reqMoveB =
      .ok (((store0.put "b" [1, 2]).1).delete "a/x", ⟨201, [], .none⟩) ∧
    handleGetHead (((store0.put "b" [1, 2]).1).delete "a/x") "a/x" "GET" =
      ⟨404, [], .text "Not Found"⟩ ∧
    handleCopy store0 "a/x" reqCopyB = .ok ((store0.put "b" [1, 2]).1, ⟨201, [], .none⟩) ∧
    (handleGetHead ((store0.put "b" [1, 2]).1) "a/x" "GET").body = .bytes [1, 2] :=
  ⟨rfl, rfl, rfl, by decide,
   ((C3_amended_move_copy store0 "a/x" "b" ⟨[1, 2], 0⟩ reqMoveB reqCopyB rfl rfl rfl).1
     (by decide)).1,
   ((C3_amended_move_copy store0 "a/x" "b" ⟨[1, 2], 0⟩ reqMoveB reqCopyB rfl rfl rfl).1
     (by decide)).2.2.2,
   ((C3_amended_move_copy store0 "a/x" "b" ⟨[1, 2], 0⟩ reqMoveB reqCopyB rfl rfl rfl).2).1,
   ((C3_amended_move_copy store0 "a/x" "b" ⟨[1, 2], 0⟩ reqMoveB reqCopyB rfl rfl rfl).2).2.2.2.2⟩

/-- C8: on any store whose keys under `a/` are exactly `a/x` and `a/y` (in
whatever order the listing yields them), PROPFIND on `/zotero/a` with
`Depth: 1` produces exactly 3 entries: the parent collection first, then
one non-collection entry per child, with hrefs `/zotero/a/x` and
`/zotero/a/y` up to listing order. -/
theorem C8_depth1_exactly_three (store : Store) (req : Request)
    (hdep : req.depth = some "1") (hpath : req.pathname = "/zotero/a")
    (hlist : ((store.list "a/").map Prod.fst).Perm ["a/x", "a/y"]) :
    (handlePropfind store "a" req).entries.length = 3 ∧
    (handlePropfind store "a" req).entries.head? =
      some ⟨"/zotero/a/", true, Option.none⟩ ∧
    (∀ e ∈ (handlePropfind store "a" req).entries.tail, e.isCollection = false) ∧
    ((handlePropfind store "a" req).entries.tail.map PropEntry.href).Perm
      ["/zotero/a/x", "/zotero/a/y"] := by
  have h1 : strEndsWith "a" "/" = false := by decide
  have h2 : strEndsWith "/zotero/a" "/" = false := by decide
  have h3 : ("a" ++ "/" : String) = "a/" := by decide
  have h4 : ("/zotero/a" ++ "/" : String) = "/zotero/a/" := by decide
  have h5 : ("1" : String) ≠ "" := by decide
  have h6 : ("1" : String) ≠ "0" := by decide
  have hes : (handlePropfind store "a" req).entries =
      (⟨"/zotero/a/", true, Option.none⟩ : PropEntry) ::
        (store.list "a/").map (fun o => ⟨"/zotero/" ++ o.1, false, some o.2⟩) := by
    simp [handlePropfind, Resp.entries, hdep, hpath, h1, h2, h3, h4, h5, h6]
  have hlen : (store.list "a/").length = 2 := by
    have := hlist.length_eq
    simpa using this
  refine ⟨by rw [hes]; simp [hlen], by rw [hes]; rfl, ?_, ?_⟩
  · intro e he
    rw [hes] at he
    simp only [List.tail_cons] at he
    rcases List.mem_map.mp he with ⟨o, _, rfl⟩
    rfl
  · rw [hes]
    simp only [List.tail_cons, List.map_map]
    have hperm := hlist.map (fun k => "/zotero/" ++ k)
    have htgt : (["a/x", "a/y"].map (fun k => "/zotero/" ++ k)) =
        ["/zotero/a/x", "/zotero/a/y"] := by decide
    rw [htgt] at hperm
    rw [List.map_map] at hperm
    exact hperm

theorem C8_witness :
    reqD1.depth = some "1" ∧ reqD1.pathname = "/zotero/a" ∧
    ((store8.list "a/").map Prod.fst).Perm ["a/x", "a/y"] ∧
    (handlePropfind store8 "a" reqD1).entries.length = 3 ∧
    (handlePropfind store8 "a" reqD1).entries.head? =
      some ⟨"/zotero/a/", true, Option.none⟩ :=
  ⟨rfl, rfl, by decide,
   (C8_depth1_exactly_three store8 reqD1 rfl rfl (by decide)).1,
   (C8_depth1_exactly_three store8 reqD1 rfl rfl (by decide)).2.1⟩

/-- C10: with `Depth: 1`, every stored object whose key extends the resolved
key `p` by a slash — grandchildren and deeper included — contributes a flat
non-collection entry to the listing. -/
theorem C10_depth1_lists_all_descendants (store : Store) (p : String)
    (req : Request) (hdep : req.depth = some "1")
    (hp : strEndsWith p "/" = false) :
    ∀ k o, (k, o) ∈ store.objs → strStartsWith k (p ++ "/") = true →
      (⟨"/zotero/" ++ k, false, some o⟩ : PropEntry) ∈
        (handlePropfind store p req).entries := by
  intro k o hmem hpre
  have h5 : ("1" : String) ≠ "" := by decide
  have h6 : ("1" : String) ≠ "0" := by decide
  have hes : (handlePropfind store p req).entries =
      (⟨if strEndsWith req.pathname "/" then req.pathname else req.pathname ++ "/",
        true, Option.none⟩ : PropEntry) ::
        (store.list (p ++ "/")).map (fun o => ⟨"/zotero/" ++ o.1, false, some o.2⟩) := by
    simp [handlePropfind, Resp.entries, hdep, hp, h5, h6]
  rw [hes]
  refine List.mem_cons_of_mem _ (List.mem_map.mpr ⟨(k, o), ?_, rfl⟩)
  exact List.mem_filter.mpr ⟨hmem, hpre⟩

theorem C10_witness :
    reqD1.depth = some "1" ∧ strEndsWith "a" "/" = false ∧
    ("a/c/d", (⟨[9], 2⟩ : R2Object)) ∈ store0.objs ∧
    strStartsWith "a/c/d" ("a" ++ "/") = true ∧
    (⟨"/zotero/" ++ "a/c/d", false, some ⟨[9], 2⟩⟩ : PropEntry) ∈
      (handlePropfind store0 "a" reqD1).entries :=
  ⟨rfl, by decide, by decide, by decide,
   C10_depth1_lists_all_descendants store0 "a" reqD1 rfl (by decide) "a/c/d"
     ⟨[9], 2⟩ (by decide) (by decide)⟩

end ZoteroWorker
